import Mathlib

/- Shallow embedding of the order completion and fill reconciliation engine of the
   mmb trading engine, following src/core/exchanges/general/order/wait_finish.rs and
   src/core/exchanges/general/features.rs. Machine integers (Decimal amounts and
   prices) are modelled as Int; identifiers and currency pairs as String;
   timestamps as Nat. Fallible Rust functions (anyhow::Result) are modelled with
   Except String; exchange-level request outcomes with RequestResult. -/

namespace Mmb

/-- Order lifecycle states (spec section 3; the variants used across the sources:
Creating, Created, FailedToCreate, Completed, Canceled, Expired). -/
inductive OrderStatus
  | Creating
  | Created
  | FailedToCreate
  | Completed
  | Canceled
  | Expired
  deriving DecidableEq, Repr

/-- Classification of exchange errors, following get_error_type in
src/core/exchanges/binance/support.rs. -/
inductive ExchangeErrorType
  | Unknown
  | OrderNotFound
  | InsufficientFunds
  | InvalidOrder
  | RateLimit
  deriving DecidableEq, Repr

/-- An exchange error; only its classification matters to the reconciliation loop. -/
structure ExchangeError where
  error_type : ExchangeErrorType
  deriving DecidableEq, Repr

/-- Outcome of an exchange request: a value or a classified exchange error
(exchange.rs RequestResult, as used by wait_finish.rs). -/
inductive RequestResult (T : Type)
  | Success (value : T)
  | Error (error : ExchangeError)
  deriving DecidableEq, Repr

/-- RequestResult::get_error, as matched on in check_order_fills. -/
def RequestResult.get_error {T : Type} : RequestResult T → Option ExchangeError
  | .Success _ => none
  | .Error e => some e

/-- RestFillsType from src/core/exchanges/general/features.rs. -/
inductive RestFillsType
  | None
  | MyTrades
  | GetOrderInfo
  deriving DecidableEq, Repr

/-- RestFillsFeatures from src/core/exchanges/general/features.rs (the fills_type
field; the other fields are a TODO in the source). -/
structure RestFillsFeatures where
  fills_type : RestFillsType
  deriving DecidableEq, Repr

/-- The part of ExchangeFeatures that check_order_fills consults. -/
structure ExchangeFeatures where
  rest_fills_features : RestFillsFeatures
  deriving DecidableEq, Repr

/-- The request kinds of request_type.rs that appear in check_order_fills; any
kind other than GetOrderTrades and GetOrderInfo hits the bail branch. -/
inductive RequestType
  | CreateOrder
  | CancelOrder
  | GetOrderTrades
  | GetOrderInfo
  deriving DecidableEq, Repr

/-- Source of a fill event (handlers; the REST fallback paths in wait_finish.rs
always use RestFallback). -/
inductive EventSourceType
  | Rest
  | RestFallback
  | WebSocket
  deriving DecidableEq, Repr

/-- Fill type used by the REST fallback paths. -/
inductive OrderFillType
  | UserTrade
  deriving DecidableEq, Repr

/-- Role of the order in a trade. -/
inductive OrderRole
  | Maker
  | Taker
  deriving DecidableEq, Repr

/-- Side of an order. -/
inductive OrderSide
  | Buy
  | Sell
  deriving DecidableEq, Repr

/-- A fill already stored on an order; the dedup check in
check_order_fills_using_request_type reads its optional trade_id. -/
structure OrderFill where
  trade_id : Option String
  fill_amount : Int
  deriving DecidableEq, Repr

/-- The order data reachable through OrderRef in wait_finish.rs: client and
exchange identifiers, currency pair, status, stored fills, accumulated filled
amount, and the last_order_trades_request_time internal property written by the
poll loop. -/
structure OrderSnapshot where
  client_order_id : String
  exchange_order_id : Option String
  currency_pair : String
  status : OrderStatus
  fills : List OrderFill
  filled_amount : Int
  last_order_trades_request_time : Option Nat
  deriving DecidableEq, Repr

/-- Modelled from the spec: OrderRef.is_finished (orders/order.rs is not under
src/) — "Terminal states: Completed, Canceled, FailedToCreate, Expired" and
"is_finished(order) ≡ state ∈ terminal set". -/
def OrderSnapshot.is_finished (order : OrderSnapshot) : Bool :=
  order.status = OrderStatus.Completed || order.status = OrderStatus.Canceled
    || order.status = OrderStatus.FailedToCreate || order.status = OrderStatus.Expired

/-- The free function is_finished at the bottom of wait_finish.rs:
status == Completed, or the order is finished and the exit flag is set (Rust's
|| binds looser than &&). -/
def is_finished (order : OrderSnapshot)
    (exit_on_order_is_finished_even_if_fills_didnt_received : Bool) : Bool :=
  order.status = OrderStatus.Completed
    || (order.is_finished && exit_on_order_is_finished_even_if_fills_didnt_received)

/-- One discrete trade observation returned by get_order_trades (the fields of
OrderTrade read by wait_finish.rs). -/
structure OrderTrade where
  trade_id : String
  price : Int
  amount : Int
  order_role : OrderRole
  fee_currency_code : String
  fee_rate : Option Int
  fee_amount : Option Int
  deriving DecidableEq, Repr

/-- The snapshot observation returned by get_order_info (the fields of OrderInfo
read by wait_finish.rs). -/
structure OrderInfo where
  average_fill_price : Int
  filled_amount : Int
  commission_currency_code : Option String
  commission_rate : Option Int
  commission_amount : Option Int
  deriving DecidableEq, Repr

/-- FillEventData as constructed in wait_finish.rs (lines 262-279 and 307-324). -/
structure FillEventData where
  source_type : EventSourceType
  trade_id : Option String
  client_order_id : Option String
  exchange_order_id : String
  fill_price : Int
  fill_amount : Int
  is_diff : Bool
  total_filled_amount : Option Int
  order_role : Option OrderRole
  commission_currency_code : Option String
  commission_rate : Option Int
  commission_amount : Option Int
  fill_type : OrderFillType
  trade_currency_pair : Option String
  order_side : Option OrderSide
  order_amount : Option Int
  deriving DecidableEq, Repr

/-- The dedup test of check_order_fills_using_request_type (GetOrderTrades
branch): some stored fill has a trade_id equal to the given one
(order_fill.trade_id().map(|id| id == trade_id).unwrap_or(false)). -/
def OrderSnapshot.has_fill_with_trade_id (order : OrderSnapshot) (tid : String) : Bool :=
  order.fills.any fun order_fill =>
    (order_fill.trade_id.map fun fill_trade_id => fill_trade_id == tid).getD false

/-- Modelled from the spec: handle_order_filled, the Fill Event Applier
(handlers/handle_order_filled.rs is not under src/). For a discrete observation
(trade identity present): NoOp when the identity is already among the order's
fills, otherwise record the identity and increase the filled amount by the
observation's amount. For a snapshot observation (no identity): high-water-mark —
apply only when the incoming absolute filled amount strictly exceeds the stored
one, setting the filled amount to the incoming value. Returns the updated order
and whether the observation was applied (non-NoOp). -/
def handle_order_filled (order : OrderSnapshot) (event_data : FillEventData) :
    OrderSnapshot × Bool :=
  match event_data.trade_id with
  | some tid =>
      if order.has_fill_with_trade_id tid then (order, false)
      else
        ({ order with
            fills := order.fills ++ [⟨some tid, event_data.fill_amount⟩],
            filled_amount := order.filled_amount + event_data.fill_amount }, true)
  | none =>
      if order.filled_amount < event_data.fill_amount then
        ({ order with filled_amount := event_data.fill_amount }, true)
      else (order, false)

/-- handle_order_filled_for_restfallback from wait_finish.rs: error when the
order has no exchange_order_id, otherwise build the discrete FillEventData
(is_diff = true, the trade's identity, price, amount, role and fee fields) and
hand it to handle_order_filled. -/
def handle_order_filled_for_restfallback (order : OrderSnapshot)
    (order_trade : OrderTrade) : Except String (OrderSnapshot × Bool) :=
  match order.exchange_order_id with
  | none => .error "No exchange_order_id in order while handle_order_filled_for_restfallback"
  | some exchange_order_id =>
      .ok (handle_order_filled order
        { source_type := EventSourceType.RestFallback
          trade_id := some order_trade.trade_id
          client_order_id := some order.client_order_id
          exchange_order_id := exchange_order_id
          fill_price := order_trade.price
          fill_amount := order_trade.amount
          is_diff := true
          total_filled_amount := none
          order_role := some order_trade.order_role
          commission_currency_code := some order_trade.fee_currency_code
          commission_rate := order_trade.fee_rate
          commission_amount := order_trade.fee_amount
          fill_type := OrderFillType.UserTrade
          trade_currency_pair := none
          order_side := none
          order_amount := none })

/-- The for-loop over order_trades in check_order_fills_using_request_type
(GetOrderTrades branch): a trade whose trade_id already matches a stored fill is
skipped (continue), otherwise it is handed to handle_order_filled_for_restfallback,
whose Err aborts the loop through the question-mark operator. Returns the loop
result, the updated order, and the trades actually handed to the handler. -/
def apply_order_trades (order : OrderSnapshot) :
    List OrderTrade → Except String Unit × OrderSnapshot × List OrderTrade
  | [] => (.ok (), order, [])
  | order_trade :: rest =>
      if order.has_fill_with_trade_id order_trade.trade_id then
        apply_order_trades order rest
      else
        match handle_order_filled_for_restfallback order order_trade with
        | .error e => (.error e, order, [])
        | .ok (order', _) =>
            let step := apply_order_trades order' rest
            (step.1, step.2.1, order_trade :: step.2.2)

/-- The observable state threaded through one run of check_order_fills: the
order record (shared OrderRef, so mutations persist across early returns) and
counters of rate-budget reservations acquired, exchange queries issued, warnings
logged, and non-NoOp fill applications reported. -/
structure CheckState where
  order : OrderSnapshot
  reservations : Nat
  queries : Nat
  warnings : Nat
  fill_events : Nat
  deriving DecidableEq, Repr

/-- The external world of one iteration of the check_order_fills loop: the
cancellation token's value at the top of the iteration, the clock value
(Utc::now) for the timestamp write, the synchronous outcome of
reserve_when_available, and the exchange responses (the one matching the request
type is consumed; the other is ignored). -/
structure IterInput where
  cancelled : Bool
  now : Nat
  reserve : Except String Unit
  trades_response : Except String (RequestResult (List OrderTrade))
  info_response : Except ExchangeError OrderInfo

/-- check_order_fills_using_request_type from wait_finish.rs: reserve rate
budget (a synchronous Err propagates), then issue the request of the given kind.
GetOrderTrades: an anyhow Err propagates; on Success the trades loop runs (its
Err propagates after the already-applied trades have mutated the order); an
exchange-level Error is returned inside Ok. GetOrderInfo: an exchange error
becomes RequestResult::Error inside Ok; on success the order must have an
exchange_order_id (else Err), then the snapshot FillEventData (is_diff = false,
no trade identity) goes to handle_order_filled. Any other request kind bails. -/
def check_order_fills_using_request_type (request_type : RequestType)
    (input : IterInput) (st : CheckState) :
    Except String (RequestResult Unit) × CheckState :=
  match input.reserve with
  | .error e => (.error e, st)
  | .ok _ =>
    let st1 : CheckState := { st with reservations := st.reservations + 1 }
    match request_type with
    | .GetOrderTrades =>
        let st2 : CheckState := { st1 with queries := st1.queries + 1 }
        match input.trades_response with
        | .error e => (.error e, st2)
        | .ok order_trades =>
          match order_trades with
          | .Success trades =>
              let step := apply_order_trades st2.order trades
              let st3 : CheckState :=
                { st2 with order := step.2.1,
                           fill_events := st2.fill_events + step.2.2.length }
              match step.1 with
              | .error e => (.error e, st3)
              | .ok _ => (.ok (.Success ()), st3)
          | .Error error => (.ok (.Error error), st2)
    | .GetOrderInfo =>
        let st2 : CheckState := { st1 with queries := st1.queries + 1 }
        match input.info_response with
        | .error exchange_error => (.ok (.Error exchange_error), st2)
        | .ok order_info =>
          match st2.order.exchange_order_id with
          | none =>
              (.error "No exchange_order_id in order while handle_order_filled_for_restfallback",
               st2)
          | some exchange_order_id =>
            let event_data : FillEventData :=
              { source_type := EventSourceType.RestFallback
                trade_id := none
                client_order_id := some st2.order.client_order_id
                exchange_order_id := exchange_order_id
                fill_price := order_info.average_fill_price
                fill_amount := order_info.filled_amount
                is_diff := false
                total_filled_amount := none
                order_role := none
                commission_currency_code := order_info.commission_currency_code
                commission_rate := order_info.commission_rate
                commission_amount := order_info.commission_amount
                fill_type := OrderFillType.UserTrade
                trade_currency_pair := none
                order_side := none
                order_amount := none }
            let applied := handle_order_filled st2.order event_data
            (.ok (.Success ()),
             { st2 with order := applied.1,
                        fill_events := st2.fill_events + (if applied.2 then 1 else 0) })
    | _ => (.error "Unsupported request type in check_order_fills", st1)

/-- Result of a run of the check_order_fills loop over a finite script of
iteration inputs: Ok, a propagated Err, or the script ran out while the loop was
still running. -/
inductive LoopOutcome
  | ok
  | err (message : String)
  | out_of_fuel
  deriving DecidableEq, Repr

/-- The while loop of check_order_fills: at the top of each iteration the
cancellation token is consulted (set means the while condition is false and the
function returns Ok); then the is_finished early return, the Creating-status
warning return, the last_order_trades_request_time write, the request via
check_order_fills_using_request_type (whose Err propagates), and the match on
get_error: OrderNotFound returns Ok, any other exchange error is logged and the
loop continues, no error returns Ok. -/
def check_order_fills_loop (request_type : RequestType) (exit_flag : Bool)
    (st : CheckState) : List IterInput → LoopOutcome × CheckState
  | [] => (.out_of_fuel, st)
  | input :: rest =>
    if input.cancelled then (.ok, st)
    else if is_finished st.order exit_flag then (.ok, st)
    else if st.order.status = OrderStatus.Creating then
      (.ok, { st with warnings := st.warnings + 1 })
    else
      let st1 : CheckState :=
        { st with order := { st.order with last_order_trades_request_time := some input.now } }
      let step := check_order_fills_using_request_type request_type input st1
      match step.1 with
      | .error e => (.err e, step.2)
      | .ok request_result =>
        match request_result.get_error with
        | some exchange_error =>
          if exchange_error.error_type = ExchangeErrorType.OrderNotFound then (.ok, step.2)
          else
            check_order_fills_loop request_type exit_flag
              { step.2 with warnings := step.2.warnings + 1 } rest
        | none => (.ok, step.2)

/-- The exchange-level configuration check_order_fills consults: the set of
currency pairs having CurrencyPairMetadata in self.symbols, and the features. -/
structure ExchangeSetup where
  symbols : List String
  features : ExchangeFeatures
  deriving DecidableEq, Repr

/-- check_order_fills from wait_finish.rs: look up the currency pair metadata
(with_context Err when absent), choose the request kind from
rest_fills_features.fills_type (None returns Ok at once), then run the loop. -/
def check_order_fills (exchange : ExchangeSetup) (order : OrderSnapshot)
    (exit_flag : Bool) (inputs : List IterInput) : LoopOutcome × CheckState :=
  let st0 : CheckState :=
    { order := order, reservations := 0, queries := 0, warnings := 0, fill_events := 0 }
  if exchange.symbols.contains order.currency_pair then
    match exchange.features.rest_fills_features.fills_type with
    | .None => (.ok, st0)
    | .MyTrades => check_order_fills_loop RequestType.GetOrderTrades exit_flag st0 inputs
    | .GetOrderInfo => check_order_fills_loop RequestType.GetOrderInfo exit_flag st0 inputs
  else (.err "No such currency_pair_metadata for given currency_pair", st0)

/-- The two session maps on Exchange touched by wait_order_finish: the
wait_finish_order broadcast map keyed by client_order_id (the one the Vacant
branch inserts into) and the wait_cancel_order map (the one the scope guard
removes from). Presence of a key models presence of an entry. -/
structure SessionMaps where
  wait_finish_order : List String
  wait_cancel_order : List String
  deriving DecidableEq, Repr

/-- How the driver's awaited call to wait_finish_order_work exits: Ok, an Err
propagated by the question-mark operator, or the future dropped before
completion (task cancellation / unwind). -/
inductive WorkOutcome
  | success
  | failure (message : String)
  | unwind
  deriving DecidableEq, Repr

/-- The value wait_order_finish produces: Ok(order.clone()), a propagated Err,
or no value because the future was dropped. -/
inductive WaitResult
  | ok (order : OrderSnapshot)
  | err (message : String)
  | panicked
  deriving DecidableEq, Repr

/-- Result and observable effects of one call to wait_order_finish: the value,
the session maps afterwards, and whether wait_finish_order_work was entered (it
spawns the poll_order_fills future, i.e. polling work starts). -/
structure WaitOutput where
  result : WaitResult
  maps : SessionMaps
  started_work : Bool
  deriving DecidableEq, Repr

/-- wait_order_finish from wait_finish.rs. FailedToCreate returns the order at
once. An Occupied entry in wait_finish_order makes the caller a subscriber: it
selects on the broadcast receiver and the cancellation token (whichever fires —
the Boolean subscriber_cancelled — the result is Ok(order.clone()), maps
untouched). A Vacant entry makes the caller the driver: a scope guard is
registered whose release action removes the client_order_id entry from
wait_cancel_order, the broadcast sender is inserted into wait_finish_order, and
wait_finish_order_work is awaited; on every exit of the branch (Ok, Err
propagated by the question-mark, or drop) the guard runs. -/
def wait_order_finish (maps : SessionMaps) (order : OrderSnapshot)
    (subscriber_cancelled : Bool) (work_outcome : WorkOutcome) : WaitOutput :=
  if order.status = OrderStatus.FailedToCreate then
    { result := .ok order, maps := maps, started_work := false }
  else if maps.wait_finish_order.contains order.client_order_id then
    let _ := subscriber_cancelled
    { result := .ok order, maps := maps, started_work := false }
  else
    let inserted : SessionMaps :=
      { maps with wait_finish_order := order.client_order_id :: maps.wait_finish_order }
    let after_guard : SessionMaps :=
      { inserted with
          wait_cancel_order := inserted.wait_cancel_order.erase order.client_order_id }
    match work_outcome with
    | .success => { result := .ok order, maps := after_guard, started_work := true }
    | .failure e => { result := .err e, maps := after_guard, started_work := true }
    | .unwind => { result := .panicked, maps := after_guard, started_work := true }

/-- A sample non-terminal order used by concrete runs. -/
def sampleOrder : OrderSnapshot :=
  { client_order_id := "o1", exchange_order_id := some "e1", currency_pair := "BTCUSD",
    status := OrderStatus.Created, fills := [], filled_amount := 0,
    last_order_trades_request_time := none }

/-- The sample order in the terminal state Completed. -/
def completedOrder : OrderSnapshot := { sampleOrder with status := OrderStatus.Completed }

/-- The sample order in the terminal state Canceled. -/
def canceledOrder : OrderSnapshot := { sampleOrder with status := OrderStatus.Canceled }

/-- The sample order in the terminal state FailedToCreate. -/
def failedOrder : OrderSnapshot := { sampleOrder with status := OrderStatus.FailedToCreate }

/-- The sample order before creation acknowledgment. -/
def creatingOrder : OrderSnapshot := { sampleOrder with status := OrderStatus.Creating }

/-- The sample order without an exchange-assigned id. -/
def noIdOrder : OrderSnapshot := { sampleOrder with exchange_order_id := none }

/-- An exchange polling fills via GetOrderTrades, with metadata for BTCUSD. -/
def tradesExchange : ExchangeSetup :=
  { symbols := ["BTCUSD"], features := ⟨⟨RestFillsType.MyTrades⟩⟩ }

/-- An exchange polling fills via GetOrderInfo, with metadata for BTCUSD. -/
def infoExchange : ExchangeSetup :=
  { symbols := ["BTCUSD"], features := ⟨⟨RestFillsType.GetOrderInfo⟩⟩ }

/-- An exchange that delivers no fills over REST, with metadata for BTCUSD. -/
def noRestFillsExchange : ExchangeSetup :=
  { symbols := ["BTCUSD"], features := ⟨⟨RestFillsType.None⟩⟩ }

/-- A snapshot observation reporting nothing filled. -/
def emptyOrderInfo : OrderInfo :=
  { average_fill_price := 0, filled_amount := 0, commission_currency_code := none,
    commission_rate := none, commission_amount := none }

/-- An iteration whose query returns the exchange error OrderNotFound. -/
def notFoundInput : IterInput :=
  { cancelled := false, now := 5, reserve := .ok (),
    trades_response := .ok (.Error ⟨ExchangeErrorType.OrderNotFound⟩),
    info_response := .error ⟨ExchangeErrorType.OrderNotFound⟩ }

/-- An iteration whose query succeeds with no trades and an empty snapshot. -/
def emptySuccessInput : IterInput :=
  { cancelled := false, now := 5, reserve := .ok (),
    trades_response := .ok (.Success []),
    info_response := .ok emptyOrderInfo }

/-- An iteration observed with the cancellation token already set. -/
def cancelledInput : IterInput := { emptySuccessInput with cancelled := true }

/-- An iteration whose query returns a transient Unknown exchange error. -/
def transientErrorInput : IterInput :=
  { cancelled := false, now := 7, reserve := .ok (),
    trades_response := .ok (.Error ⟨ExchangeErrorType.Unknown⟩),
    info_response := .error ⟨ExchangeErrorType.Unknown⟩ }

/-- A discrete trade observation with identity t1. -/
def tradeA : OrderTrade :=
  { trade_id := "t1", price := 10, amount := 3, order_role := OrderRole.Taker,
    fee_currency_code := "USD", fee_rate := none, fee_amount := some 1 }

/-- An order that already stores a fill with tradeA's identity. -/
def orderWithFillA : OrderSnapshot :=
  { sampleOrder with fills := [⟨some "t1", 3⟩], filled_amount := 3 }

/-- The check-loop state for a given order with all counters at zero. -/
def initialState (order : OrderSnapshot) : CheckState :=
  { order := order, reservations := 0, queries := 0, warnings := 0, fill_events := 0 }

/-- Applying a trade through handle_order_filled_for_restfallback only ever adds
fills: a trade id matching some stored fill keeps matching afterwards. -/
theorem has_fill_mono (order : OrderSnapshot) (t : OrderTrade) (order' : OrderSnapshot)
    (b : Bool) (h : handle_order_filled_for_restfallback order t = .ok (order', b))
    (tid : String) (hh : order.has_fill_with_trade_id tid = true) :
    order'.has_fill_with_trade_id tid = true := by
  unfold handle_order_filled_for_restfallback at h
  cases heid : order.exchange_order_id with
  | none => rw [heid] at h; exact absurd h (by simp)
  | some eid =>
    rw [heid] at h
    simp only [Except.ok.injEq] at h
    unfold handle_order_filled at h
    simp only at h
    by_cases hb : order.has_fill_with_trade_id t.trade_id
    · rw [if_pos hb] at h
      obtain ⟨rfl, rfl⟩ := Prod.mk.injEq .. ▸ h
      exact hh
    · rw [if_neg hb] at h
      have horder : order' = { order with
          fills := order.fills ++ [⟨some t.trade_id, t.amount⟩],
          filled_amount := order.filled_amount + t.amount } := by
        exact (Prod.mk.injEq .. ▸ h).1.symm
      subst horder
      unfold OrderSnapshot.has_fill_with_trade_id at hh ⊢
      simp only [List.any_append, Bool.or_eq_true]
      left
      exact hh

/-- After a fresh trade is applied through handle_order_filled_for_restfallback,
its identity is among the order's fills. -/
theorem has_fill_after_apply (order : OrderSnapshot) (t : OrderTrade) (order' : OrderSnapshot)
    (b : Bool) (hnew : order.has_fill_with_trade_id t.trade_id = false)
    (h : handle_order_filled_for_restfallback order t = .ok (order', b)) :
    order'.has_fill_with_trade_id t.trade_id = true := by
  unfold handle_order_filled_for_restfallback at h
  cases heid : order.exchange_order_id with
  | none => rw [heid] at h; exact absurd h (by simp)
  | some eid =>
    rw [heid] at h
    simp only [Except.ok.injEq] at h
    unfold handle_order_filled at h
    simp only at h
    rw [if_neg (by simp [hnew])] at h
    have horder : order' = { order with
        fills := order.fills ++ [⟨some t.trade_id, t.amount⟩],
        filled_amount := order.filled_amount + t.amount } := by
      exact (Prod.mk.injEq .. ▸ h).1.symm
    subst horder
    unfold OrderSnapshot.has_fill_with_trade_id
    simp

/-- Every trade handed to the handler by the trades loop was fresh when the loop
started: its identity matched none of the fills stored on the initial order. -/
theorem applied_trades_fresh (trades : List OrderTrade) : ∀ (order : OrderSnapshot)
    (t : OrderTrade), t ∈ (apply_order_trades order trades).2.2 →
    order.has_fill_with_trade_id t.trade_id = false := by
  induction trades with
  | nil => intro order t ht; simp [apply_order_trades] at ht
  | cons head rest ih =>
    intro order t ht
    by_cases hb : order.has_fill_with_trade_id head.trade_id
    · rw [apply_order_trades, if_pos hb] at ht
      exact ih order t ht
    · rw [apply_order_trades, if_neg hb] at ht
      cases hh : handle_order_filled_for_restfallback order head with
      | error e => rw [hh] at ht; simp at ht
      | ok pr =>
        obtain ⟨order', bflag⟩ := pr
        rw [hh] at ht
        simp only [List.mem_cons] at ht
        rcases ht with rfl | ht
        · simpa using hb
        · have hfresh := ih order' t ht
          cases hx : order.has_fill_with_trade_id t.trade_id with
          | false => rfl
          | true =>
              have hmono := has_fill_mono order head order' bflag hh t.trade_id hx
              rw [hmono] at hfresh
              exact hfresh

/-- The trades handed to the handler by one run of the trades loop carry
pairwise distinct trade identities. -/
theorem applied_trades_nodup (trades : List OrderTrade) : ∀ (order : OrderSnapshot),
    (((apply_order_trades order trades).2.2).map OrderTrade.trade_id).Nodup := by
  induction trades with
  | nil => intro order; simp [apply_order_trades]
  | cons head rest ih =>
    intro order
    by_cases hb : order.has_fill_with_trade_id head.trade_id
    · rw [apply_order_trades, if_pos hb]
      exact ih order
    · rw [apply_order_trades, if_neg hb]
      cases hh : handle_order_filled_for_restfallback order head with
      | error e => simp
      | ok pr =>
        obtain ⟨order', bflag⟩ := pr
        simp only [List.map_cons, List.nodup_cons]
        refine ⟨?_, ih order'⟩
        intro hmem
        obtain ⟨u, hu, huid⟩ := List.mem_map.mp hmem
        have hfresh := applied_trades_fresh rest order' u hu
        have hadded := has_fill_after_apply order head order' bflag (by simpa using hb) hh
        rw [huid] at hfresh
        rw [hadded] at hfresh
        simp at hfresh

/-- C1 (code bug): the driver branch of wait_order_finish is claimed to remove
the wait_finish_order entry for the order's client_order_id on every exit path.
Evaluating the code at the failing input refutes this: for order "o1" (status
Created) and an empty wait_finish_order map, after the driver branch exits —
normally, with a propagated error, or with the future dropped — the entry "o1"
is still present in wait_finish_order; the scope guard removed the entry from
wait_cancel_order instead (an initial wait_cancel_order entry "o1" disappears),
contradicting its own comment "Be sure value will be removed anyway". -/
theorem c1_driver_leaves_wait_finish_entry :
    (wait_order_finish ⟨[], ["o1"]⟩ sampleOrder false WorkOutcome.success).maps
        = ⟨["o1"], []⟩
    ∧ (wait_order_finish ⟨[], []⟩ sampleOrder false (WorkOutcome.failure "poller failed")).maps.wait_finish_order
        = ["o1"]
    ∧ (wait_order_finish ⟨[], []⟩ sampleOrder false WorkOutcome.unwind).maps.wait_finish_order
        = ["o1"] := ⟨rfl, rfl, rfl⟩

/-- C2 (counterexample): an order already in the terminal state Completed does
not return immediately from wait_order_finish — with no session present it takes
the Vacant (driver) branch, creating a wait_finish_order entry and starting the
polling work, contrary to the claim. -/
theorem c2_completed_order_creates_session :
    (wait_order_finish ⟨[], []⟩ completedOrder false WorkOutcome.success).maps.wait_finish_order
        = ["o1"]
    ∧ (wait_order_finish ⟨[], []⟩ completedOrder false WorkOutcome.success).started_work = true :=
  ⟨rfl, rfl⟩

/-- C2 (amended): only an order whose status is FailedToCreate makes
wait_order_finish return the current snapshot immediately, creating no session
entry and starting no polling work; other terminal states take the normal
session path. -/
theorem c2_failed_to_create_returns_immediately (maps : SessionMaps) (order : OrderSnapshot)
    (subscriber_cancelled : Bool) (work_outcome : WorkOutcome)
    (h : order.status = OrderStatus.FailedToCreate) :
    wait_order_finish maps order subscriber_cancelled work_outcome
      = { result := WaitResult.ok order, maps := maps, started_work := false } := by
  simp [wait_order_finish, h]

/-- C2 witness: the amended theorem at a concrete FailedToCreate order. -/
theorem c2_failed_to_create_witness :
    wait_order_finish ⟨[], []⟩ failedOrder false WorkOutcome.success
      = { result := WaitResult.ok failedOrder, maps := ⟨[], []⟩, started_work := false } :=
  c2_failed_to_create_returns_immediately ⟨[], []⟩ failedOrder false WorkOutcome.success rfl

/-- C3 (counterexample): a poll iteration receiving an OrderNotFound exchange
error returns Ok, but the order is not marked Canceled (its status is still
Created) and no fill or terminal notification is fired by check_order_fills. -/
theorem c3_not_found_does_not_cancel_order :
    (check_order_fills tradesExchange sampleOrder true [notFoundInput]).1 = LoopOutcome.ok
    ∧ (check_order_fills tradesExchange sampleOrder true [notFoundInput]).2.order.status
        = OrderStatus.Created
    ∧ (check_order_fills tradesExchange sampleOrder true [notFoundInput]).2.fill_events = 0 :=
  ⟨rfl, rfl, rfl⟩

/-- C3 (amended): on an exchange error classified OrderNotFound — on either
request path — the poll loop of check_order_fills stops and returns
successfully, with no error to the caller; the resulting state shows the order
unchanged except for the request-time stamp (in particular its status is not
changed and no notification fires inside this function). -/
theorem c3_not_found_stops_loop_ok (flag : Bool) (st : CheckState) (input : IterInput)
    (rest : List IterInput) (e : ExchangeError)
    (hc : input.cancelled = false)
    (hf : is_finished st.order flag = false)
    (hcr : st.order.status ≠ OrderStatus.Creating)
    (hr : input.reserve = Except.ok ())
    (he : e.error_type = ExchangeErrorType.OrderNotFound) :
    (input.trades_response = Except.ok (RequestResult.Error e) →
      check_order_fills_loop RequestType.GetOrderTrades flag st (input :: rest)
        = (LoopOutcome.ok,
           { st with
               order := { st.order with last_order_trades_request_time := some input.now },
               reservations := st.reservations + 1,
               queries := st.queries + 1 }))
    ∧ (input.info_response = Except.error e →
      check_order_fills_loop RequestType.GetOrderInfo flag st (input :: rest)
        = (LoopOutcome.ok,
           { st with
               order := { st.order with last_order_trades_request_time := some input.now },
               reservations := st.reservations + 1,
               queries := st.queries + 1 })) := by
  constructor <;> intro ht <;>
    simp [check_order_fills_loop, hc, hf, hcr, check_order_fills_using_request_type, hr, ht,
      RequestResult.get_error, he]

/-- C3 witness: the amended theorem at a concrete OrderNotFound iteration. -/
theorem c3_not_found_witness :
    check_order_fills_loop RequestType.GetOrderTrades true (initialState sampleOrder)
        (notFoundInput :: [])
      = (LoopOutcome.ok,
         { initialState sampleOrder with
             order := { sampleOrder with last_order_trades_request_time := some 5 },
             reservations := 1, queries := 1 }) :=
  (c3_not_found_stops_loop_ok true (initialState sampleOrder) notFoundInput []
    ⟨ExchangeErrorType.OrderNotFound⟩ rfl rfl (by decide) rfl rfl).1 rfl

/-- C4 (counterexample): an order in the terminal state Canceled, polled with
exit_on_order_is_finished_even_if_fills_didnt_received = false, does not exit at
the top of the iteration: the loop issues an exchange query (and then returns
Ok on the successful empty response). -/
theorem c4_terminal_order_still_queried :
    (check_order_fills tradesExchange canceledOrder false [emptySuccessInput]).1 = LoopOutcome.ok
    ∧ (check_order_fills tradesExchange canceledOrder false [emptySuccessInput]).2.queries = 1 :=
  ⟨rfl, rfl⟩

/-- C4 (amended): the loop returns successfully at the top of the iteration,
without issuing a further exchange query, exactly when the free function
is_finished approves: for a Completed order under every flag value, and for any
other terminal state only when the exit flag is true. -/
theorem c4_finished_order_exits_at_top (request_type : RequestType) (flag : Bool)
    (st : CheckState) (input : IterInput) (rest : List IterInput)
    (hc : input.cancelled = false)
    (h : st.order.status = OrderStatus.Completed ∨ (st.order.is_finished = true ∧ flag = true)) :
    check_order_fills_loop request_type flag st (input :: rest) = (LoopOutcome.ok, st) := by
  have hf : is_finished st.order flag = true := by
    rcases h with h | ⟨h1, h2⟩
    · simp [is_finished, h]
    · simp [is_finished, h1, h2]
  simp [check_order_fills_loop, hc, hf]

/-- C4 witness: the amended theorem at a concrete Completed order with the exit
flag false. -/
theorem c4_finished_order_exits_witness :
    check_order_fills_loop RequestType.GetOrderTrades false (initialState completedOrder)
        (emptySuccessInput :: []) = (LoopOutcome.ok, initialState completedOrder) :=
  c4_finished_order_exits_at_top RequestType.GetOrderTrades false (initialState completedOrder)
    emptySuccessInput [] rfl (Or.inl rfl)

/-- C5: within one GetOrderTrades poll, the trades loop never re-applies a trade
identity: a trade whose trade_id already matches a fill stored on the order is
never handed to handle_order_filled_for_restfallback; every trade actually
handed to the handler was fresh with respect to the initial order; and — the
Fill Event Applier recording each applied discrete identity, as modelled in
handle_order_filled — the handled trades carry pairwise distinct identities, so
no discrete trade identity is applied more than once. -/
theorem c5_duplicate_trade_ids_never_reapplied (order : OrderSnapshot)
    (trades : List OrderTrade) :
    (∀ t ∈ trades, order.has_fill_with_trade_id t.trade_id = true →
        t ∉ (apply_order_trades order trades).2.2)
    ∧ (∀ t ∈ (apply_order_trades order trades).2.2,
        order.has_fill_with_trade_id t.trade_id = false)
    ∧ (((apply_order_trades order trades).2.2).map OrderTrade.trade_id).Nodup := by
  refine ⟨?_, applied_trades_fresh trades order, applied_trades_nodup trades order⟩
  intro t _ hstored happlied
  have hfresh := applied_trades_fresh trades order t happlied
  rw [hstored] at hfresh
  simp at hfresh

/-- C5 witness: a trade whose identity is already stored on the order is not
handed to the handler. -/
theorem c5_duplicate_trade_ids_witness :
    tradeA ∉ (apply_order_trades orderWithFillA [tradeA]).2.2 :=
  (c5_duplicate_trade_ids_never_reapplied orderWithFillA [tradeA]).1 tradeA
    (List.mem_singleton.mpr rfl) rfl

/-- C6: an exchange error other than OrderNotFound received by a poll iteration
— on either request path — is logged (one warning) and the loop continues with
the next iteration from the bumped state: no abort, no error surfaced to the
caller, the order's status untouched. -/
theorem c6_other_errors_retry (flag : Bool) (st : CheckState) (input : IterInput)
    (rest : List IterInput) (e : ExchangeError)
    (hc : input.cancelled = false)
    (hf : is_finished st.order flag = false)
    (hcr : st.order.status ≠ OrderStatus.Creating)
    (hr : input.reserve = Except.ok ())
    (he : e.error_type ≠ ExchangeErrorType.OrderNotFound) :
    (input.trades_response = Except.ok (RequestResult.Error e) →
      check_order_fills_loop RequestType.GetOrderTrades flag st (input :: rest)
        = check_order_fills_loop RequestType.GetOrderTrades flag
            { st with
                order := { st.order with last_order_trades_request_time := some input.now },
                reservations := st.reservations + 1,
                queries := st.queries + 1,
                warnings := st.warnings + 1 } rest)
    ∧ (input.info_response = Except.error e →
      check_order_fills_loop RequestType.GetOrderInfo flag st (input :: rest)
        = check_order_fills_loop RequestType.GetOrderInfo flag
            { st with
                order := { st.order with last_order_trades_request_time := some input.now },
                reservations := st.reservations + 1,
                queries := st.queries + 1,
                warnings := st.warnings + 1 } rest) := by
  constructor <;> intro ht <;>
    simp [check_order_fills_loop, hc, hf, hcr, check_order_fills_using_request_type, hr, ht,
      RequestResult.get_error, he]

/-- C6 witness: the theorem at a concrete transient Unknown error iteration. -/
theorem c6_other_errors_retry_witness :
    check_order_fills_loop RequestType.GetOrderTrades true (initialState sampleOrder)
        (transientErrorInput :: [])
      = check_order_fills_loop RequestType.GetOrderTrades true
          { initialState sampleOrder with
              order := { sampleOrder with last_order_trades_request_time := some 7 },
              reservations := 1, queries := 1, warnings := 1 } [] :=
  (c6_other_errors_retry true (initialState sampleOrder) transientErrorInput []
    ⟨ExchangeErrorType.Unknown⟩ rfl rfl (by decide) rfl (by decide)).1 rfl

/-- C7: a poll iteration reaching an order whose status is Creating logs one
warning and returns Ok at once — no reservation, no exchange query, the order
untouched: a reconciliation attempt started before creation acknowledgment is a
no-op, not an error. -/
theorem c7_creating_returns_ok (request_type : RequestType) (flag : Bool) (st : CheckState)
    (input : IterInput) (rest : List IterInput)
    (hc : input.cancelled = false)
    (hcr : st.order.status = OrderStatus.Creating) :
    check_order_fills_loop request_type flag st (input :: rest)
      = (LoopOutcome.ok, { st with warnings := st.warnings + 1 }) := by
  have hf : is_finished st.order flag = false := by
    simp [is_finished, OrderSnapshot.is_finished, hcr]
  simp [check_order_fills_loop, hc, hf, hcr]

/-- C7 witness: the theorem at a concrete Creating order. -/
theorem c7_creating_returns_ok_witness :
    check_order_fills_loop RequestType.GetOrderTrades true (initialState creatingOrder)
        (emptySuccessInput :: [])
      = (LoopOutcome.ok, { initialState creatingOrder with warnings := 1 }) :=
  c7_creating_returns_ok RequestType.GetOrderTrades true (initialState creatingOrder)
    emptySuccessInput [] rfl rfl

/-- C8: cancellation never produces an error from the wait machinery: a
subscriber of wait_order_finish whose cancellation token fires while blocked on
the session broadcast still gets Ok with the order snapshot (maps untouched, no
work started); and a check_order_fills iteration finding the token set at its
top exits at once with Ok and the state — hence the order's current, possibly
non-terminal, snapshot — unchanged. -/
theorem c8_cancellation_not_an_error :
    (∀ (maps : SessionMaps) (order : OrderSnapshot) (work_outcome : WorkOutcome),
        order.status ≠ OrderStatus.FailedToCreate →
        maps.wait_finish_order.contains order.client_order_id = true →
        wait_order_finish maps order true work_outcome
          = { result := WaitResult.ok order, maps := maps, started_work := false })
    ∧ (∀ (request_type : RequestType) (flag : Bool) (st : CheckState)
        (input : IterInput) (rest : List IterInput), input.cancelled = true →
        check_order_fills_loop request_type flag st (input :: rest) = (LoopOutcome.ok, st)) := by
  constructor
  · intro maps order work_outcome h1 h2
    have h2' : order.client_order_id ∈ maps.wait_finish_order := by simpa using h2
    simp [wait_order_finish, h1, h2']
  · intro request_type flag st input rest hc
    simp [check_order_fills_loop, hc]

/-- C8 witness: both parts at concrete inputs — a cancelled subscriber on an
existing session, and a loop iteration with the token set. -/
theorem c8_cancellation_witness :
    wait_order_finish ⟨["o1"], []⟩ sampleOrder true WorkOutcome.unwind
      = { result := WaitResult.ok sampleOrder, maps := ⟨["o1"], []⟩, started_work := false }
    ∧ check_order_fills_loop RequestType.GetOrderTrades true (initialState sampleOrder)
        (cancelledInput :: []) = (LoopOutcome.ok, initialState sampleOrder) :=
  ⟨c8_cancellation_not_an_error.1 ⟨["o1"], []⟩ sampleOrder WorkOutcome.unwind (by decide) rfl,
   c8_cancellation_not_an_error.2 RequestType.GetOrderTrades true (initialState sampleOrder)
     cancelledInput [] rfl⟩

/-- C9: a GetOrderInfo iteration whose query succeeds while the order has no
exchange-assigned id produces Err, which aborts the poll loop instead of being
retried in place. -/
theorem c9_missing_exchange_order_id_aborts (flag : Bool) (st : CheckState) (input : IterInput)
    (rest : List IterInput) (info : OrderInfo)
    (hc : input.cancelled = false)
    (hf : is_finished st.order flag = false)
    (hcr : st.order.status ≠ OrderStatus.Creating)
    (hr : input.reserve = Except.ok ())
    (hi : input.info_response = Except.ok info)
    (hid : st.order.exchange_order_id = none) :
    check_order_fills_loop RequestType.GetOrderInfo flag st (input :: rest)
      = (LoopOutcome.err "No exchange_order_id in order while handle_order_filled_for_restfallback",
         { st with
             order := { st.order with last_order_trades_request_time := some input.now },
             reservations := st.reservations + 1,
             queries := st.queries + 1 }) := by
  simp [check_order_fills_loop, hc, hf, hcr, check_order_fills_using_request_type, hr, hi, hid]

/-- C9 witness: the theorem at a concrete order without exchange_order_id. -/
theorem c9_missing_exchange_order_id_witness :
    check_order_fills_loop RequestType.GetOrderInfo true (initialState noIdOrder)
        (emptySuccessInput :: [])
      = (LoopOutcome.err "No exchange_order_id in order while handle_order_filled_for_restfallback",
         { initialState noIdOrder with
             order := { noIdOrder with last_order_trades_request_time := some 5 },
             reservations := 1, queries := 1 }) :=
  c9_missing_exchange_order_id_aborts true (initialState noIdOrder) emptySuccessInput []
    emptyOrderInfo rfl rfl (by decide) rfl rfl rfl

/-- C10 (counterexample): with fills_type None but no currency pair metadata for
the order's pair, check_order_fills returns an error, not Ok — the metadata
lookup precedes the fills_type check. -/
theorem c10_missing_metadata_errors :
    (check_order_fills ⟨[], ⟨⟨RestFillsType.None⟩⟩⟩ sampleOrder true []).1
      = LoopOutcome.err "No such currency_pair_metadata for given currency_pair" := rfl

/-- C10 (amended): provided the currency pair metadata lookup succeeds, an
exchange whose rest_fills_features.fills_type is None makes check_order_fills
return Ok before entering the poll loop: zero reservations, zero queries, zero
warnings and fill events, the order untouched. -/
theorem c10_rest_fills_none_short_circuits (exchange : ExchangeSetup) (order : OrderSnapshot)
    (flag : Bool) (inputs : List IterInput)
    (hm : exchange.symbols.contains order.currency_pair = true)
    (hf : exchange.features.rest_fills_features.fills_type = RestFillsType.None) :
    check_order_fills exchange order flag inputs = (LoopOutcome.ok, initialState order) := by
  have hm' : order.currency_pair ∈ exchange.symbols := by simpa using hm
  simp [check_order_fills, hm', hf, initialState]

/-- C10 witness: the amended theorem at a concrete None-fills exchange. -/
theorem c10_rest_fills_none_witness :
    check_order_fills noRestFillsExchange sampleOrder true []
      = (LoopOutcome.ok, initialState sampleOrder) :=
  c10_rest_fills_none_short_circuits noRestFillsExchange sampleOrder true [] rfl rfl

end Mmb
